import Mathlib

/-!
Verification of the homebridge-automower-extras plugin against its design
specification.  The TypeScript sources are shallowly embedded as Lean
definitions; theorems below settle the behavioural claims of the spec.
-/

/-! ## JavaScript string primitives

`String.prototype.indexOf` and `String.prototype.substring` as used by
`parseModelInformation` in both vendor variants.  Strings are embedded as
`List Char`; `substring` clamps its integer arguments to `[0, length]` and
swaps them when out of order, exactly per ECMAScript. -/

def spaceChar : Char := ' '

def jsIndexOfChar : List Char → Char → Int
  | [], _ => -1
  | x :: xs, c =>
    if x = c then 0
    else
      let r := jsIndexOfChar xs c
      if r < 0 then -1 else r + 1

def clampToLength (len : Nat) (i : Int) : Nat :=
  (min (max i 0) (len : Int)).toNat

def jsSubstring (s : List Char) (a b : Int) : List Char :=
  let x := clampToLength s.length a
  let y := clampToLength s.length b
  (s.drop (min x y)).take (max x y - min x y)

def jsSubstringToEnd (s : List Char) (a : Int) : List Char :=
  jsSubstring s a (s.length : Int)

namespace Automower

/-- Model information parsed from the model data
(`automowerGetMowersServiceImpl.ts`). -/
structure ModelInformation where
  manufacturer : List Char
  model : List Char
deriving DecidableEq, Repr

/-- Embeds `AutomowerGetMowersServiceImpl.parseModelInformation`. -/
def parseModelInformation (value : List Char) : ModelInformation :=
  let firstIndex := jsIndexOfChar value spaceChar
  { manufacturer := jsSubstring value 0 firstIndex
  , model := jsSubstringToEnd value (firstIndex + 1) }

end Automower

namespace Gardena

/-- Model information parsed from the model data
(`GardenaGetMowersService` in the services source). -/
structure ModelInformation where
  manufacturer : List Char
  model : List Char
deriving DecidableEq, Repr

/-- Embeds `GardenaGetMowersService.parseModelInformation`. -/
def parseModelInformation (value : List Char) : ModelInformation :=
  let firstIndex := jsIndexOfChar value spaceChar
  { manufacturer := jsSubstring value 0 firstIndex
  , model := jsSubstringToEnd value (firstIndex + 1) }

end Gardena

theorem jsIndexOfChar_of_not_mem (s : List Char) (c : Char) (h : c ∉ s) :
    jsIndexOfChar s c = -1 := by
  induction s with
  | nil => rfl
  | cons x xs ih =>
    have hx : ¬ (x = c) := fun hxc => h (hxc ▸ List.mem_cons_self x xs)
    have hxs : c ∉ xs := fun hc => h (List.mem_cons_of_mem x hc)
    simp only [jsIndexOfChar, if_neg hx, ih hxs]
    norm_num

theorem jsIndexOfChar_append (pre post : List Char) (c : Char) (h : c ∉ pre) :
    jsIndexOfChar (pre ++ c :: post) c = (pre.length : Int) := by
  induction pre with
  | nil => simp [jsIndexOfChar]
  | cons x xs ih =>
    have hx : ¬ (x = c) := fun hxc => h (hxc ▸ List.mem_cons_self x xs)
    have hxs : c ∉ xs := fun hc => h (List.mem_cons_of_mem x hc)
    have hr := ih hxs
    simp only [List.cons_append, jsIndexOfChar, if_neg hx, List.append_eq, hr]
    rw [if_neg (by omega)]
    simp [List.length_cons]

theorem clampToLength_natCast (len k : Nat) (h : k ≤ len) :
    clampToLength len (k : Int) = k := by
  simp only [clampToLength]
  omega

theorem clampToLength_neg_one (len : Nat) : clampToLength len (-1) = 0 := by
  simp only [clampToLength]
  omega

theorem jsSubstring_zero_natCast (s : List Char) (k : Nat) (h : k ≤ s.length) :
    jsSubstring s 0 (k : Int) = s.take k := by
  simp only [jsSubstring]
  rw [show ((0 : Int) = ((0 : Nat) : Int)) from rfl,
    clampToLength_natCast s.length 0 (Nat.zero_le _), clampToLength_natCast s.length k h]
  simp

theorem jsSubstring_zero_neg_one (s : List Char) : jsSubstring s 0 (-1) = [] := by
  simp only [jsSubstring, clampToLength_neg_one]
  rw [show ((0 : Int) = ((0 : Nat) : Int)) from rfl,
    clampToLength_natCast s.length 0 (Nat.zero_le _)]
  simp

theorem jsSubstringToEnd_natCast (s : List Char) (k : Nat) (h : k ≤ s.length) :
    jsSubstringToEnd s (k : Int) = s.drop k := by
  simp only [jsSubstringToEnd, jsSubstring,
    clampToLength_natCast s.length k h, clampToLength_natCast s.length s.length (le_refl _)]
  rw [Nat.min_eq_left h, Nat.max_eq_right h]
  have hlen : (s.drop k).length = s.length - k := List.length_drop k s
  rw [← hlen, List.take_length]

theorem jsSubstringToEnd_zero (s : List Char) : jsSubstringToEnd s 0 = s := by
  have h := jsSubstringToEnd_natCast s 0 (Nat.zero_le _)
  simpa using h

/-- C10: for every model-name string processed by `parseModelInformation` in
both vendor variants, a string with a space splits into the prefix before the
first space (manufacturer) and everything after it (model); a string without
a space yields an empty manufacturer and the whole input as the model. -/
theorem parseModelInformation_spec (pre post s : List Char)
    (hpre : spaceChar ∉ pre) (hs : spaceChar ∉ s) :
    Automower.parseModelInformation (pre ++ spaceChar :: post) =
      { manufacturer := pre, model := post } ∧
    Gardena.parseModelInformation (pre ++ spaceChar :: post) =
      { manufacturer := pre, model := post } ∧
    Automower.parseModelInformation s = { manufacturer := [], model := s } ∧
    Gardena.parseModelInformation s = { manufacturer := [], model := s } := by
  have hidx := jsIndexOfChar_append pre post spaceChar hpre
  have hlen : pre.length ≤ (pre ++ spaceChar :: post).length := by
    simp [List.length_append]
  have hlen1 : pre.length + 1 ≤ (pre ++ spaceChar :: post).length := by
    simp [List.length_append]
  have hman : jsSubstring (pre ++ spaceChar :: post) 0 ((pre.length : Int)) = pre := by
    rw [jsSubstring_zero_natCast _ _ hlen, List.take_left]
  have hmod : jsSubstringToEnd (pre ++ spaceChar :: post) ((pre.length : Int) + 1) = post := by
    rw [show ((pre.length : Int) + 1 = ((pre.length + 1 : Nat) : Int)) from by push_cast; ring,
      jsSubstringToEnd_natCast _ _ hlen1]
    rw [show pre ++ spaceChar :: post = (pre ++ [spaceChar]) ++ post from by simp,
      show pre.length + 1 = (pre ++ [spaceChar]).length from by simp,
      List.drop_left]
  have hidxs := jsIndexOfChar_of_not_mem s spaceChar hs
  refine ⟨?_, ?_, ?_, ?_⟩
  · simp only [Automower.parseModelInformation, hidx, hman, hmod]
  · simp only [Gardena.parseModelInformation, hidx, hman, hmod]
  · simp only [Automower.parseModelInformation, hidxs]
    rw [show ((-1 : Int) + 1 = (((0 : Nat)) : Int)) from by norm_num]
    rw [jsSubstring_zero_neg_one, jsSubstringToEnd_natCast s 0 (Nat.zero_le _)]
    simp
  · simp only [Gardena.parseModelInformation, hidxs]
    rw [show ((-1 : Int) + 1 = (((0 : Nat)) : Int)) from by norm_num]
    rw [jsSubstring_zero_neg_one, jsSubstringToEnd_natCast s 0 (Nat.zero_le _)]
    simp

/-- Witness for C10 at a concrete input: "HUSQVARNA AUTOMOWER 430XH" splits at
the first space, and "430XH" (no space) keeps the whole string as model. -/
theorem parseModelInformation_spec_witness :
    Automower.parseModelInformation ("HUSQVARNA AUTOMOWER 430XH".toList) =
      { manufacturer := "HUSQVARNA".toList, model := "AUTOMOWER 430XH".toList } ∧
    Gardena.parseModelInformation ("430XH".toList) =
      { manufacturer := [], model := "430XH".toList } := by
  have h := parseModelInformation_spec ("HUSQVARNA".toList) ("AUTOMOWER 430XH".toList)
    ("430XH".toList) (by decide) (by decide)
  have happ : "HUSQVARNA".toList ++ spaceChar :: "AUTOMOWER 430XH".toList =
      "HUSQVARNA AUTOMOWER 430XH".toList := by decide
  exact ⟨happ ▸ h.1, h.2.2.2⟩

/-! ## Vendor-neutral mower model

The `model.Mower` shape produced by the discovery services, reconstructed
from the fields both services assign. -/

namespace Model

inductive Activity
  | PARKED | MOWING | GOING_HOME | LEAVING_HOME | CHARGING | UNKNOWN
deriving DecidableEq, Repr, Inhabited

inductive State
  | IN_OPERATION | FAULTED | PAUSED | STOPPED | OFF | READY | TAMPERED | CHARGING | UNKNOWN
deriving DecidableEq, Repr, Inhabited

structure AccessToken where
  value : String
  provider : String
deriving DecidableEq, Repr

structure LocationRef where
  id : String
deriving DecidableEq, Repr

structure BatteryInfo where
  isCharging : Option Bool
  level : Nat
deriving DecidableEq, Repr

structure ConnectionInfo where
  connected : Bool
deriving DecidableEq, Repr

structure MetadataInfo where
  manufacturer : List Char
  model : List Char
  name : List Char
  serialNumber : List Char
deriving DecidableEq, Repr

structure MowerStatus where
  activity : Activity
  state : State
  enabled : Option Bool
deriving DecidableEq, Repr

structure MowerAttributes where
  location : Option LocationRef
  battery : BatteryInfo
  connection : ConnectionInfo
  metadata : MetadataInfo
  mower : MowerStatus
deriving DecidableEq, Repr

structure Mower where
  id : String
  attributes : MowerAttributes
deriving DecidableEq, Repr

end Model

/-- Failure taxonomy of a backend request: the `NotAuthorizedError` class of
`errors/notAuthorizedError.ts` versus every other thrown error. -/
inductive BackendError
  | notAuthorized
  | other (message : String)
deriving DecidableEq, Repr

namespace Automower

/-! Types of `clients/automower/automowerClient.ts` as consumed by
`AutomowerGetMowersServiceImpl`. -/

inductive ApiActivity
  | CHARGING | PARKED_IN_CS | NOT_APPLICABLE | GOING_HOME | LEAVING
  | STOPPED_IN_GARDEN | MOWING | UNKNOWN
deriving DecidableEq, Repr, Inhabited

inductive ApiState
  | IN_OPERATION | ERROR | ERROR_AT_POWER_UP | FATAL_ERROR | RESTRICTED | PAUSED
  | STOPPED | NOT_APPLICABLE | OFF | WAIT_POWER_UP | WAIT_UPDATING | UNKNOWN
deriving DecidableEq, Repr, Inhabited

inductive ApiMode
  | MAIN_AREA | SECONDARY_AREA | HOME | DEMO | UNKNOWN
deriving DecidableEq, Repr, Inhabited

structure ApiMowerState where
  activity : ApiActivity
  state : ApiState
  mode : ApiMode
  errorCode : Nat
  errorCodeTimestamp : Nat
deriving DecidableEq, Repr

structure ApiSystem where
  name : List Char
  model : List Char
  serialNumber : Nat
deriving DecidableEq, Repr

structure ApiBattery where
  batteryPercent : Nat
deriving DecidableEq, Repr

structure ApiMetadata where
  connected : Bool
  statusTimestamp : Nat
deriving DecidableEq, Repr

structure ApiMowerAttributes where
  system : ApiSystem
  battery : ApiBattery
  mower : ApiMowerState
  metadata : ApiMetadata
deriving DecidableEq, Repr

structure ApiMower where
  id : String
  attributes : ApiMowerAttributes
deriving DecidableEq, Repr

/-- Embeds `AutomowerGetMowersServiceImpl.convertMowerActivity`. -/
def convertMowerActivity (mower : ApiMower) : Model.Activity :=
  match mower.attributes.mower.activity with
  | .CHARGING | .PARKED_IN_CS | .NOT_APPLICABLE => .PARKED
  | .GOING_HOME => .GOING_HOME
  | .LEAVING => .LEAVING_HOME
  | .STOPPED_IN_GARDEN | .MOWING => .MOWING
  | .UNKNOWN => .UNKNOWN

/-- Embeds `AutomowerGetMowersServiceImpl.convertMowerState`. -/
def convertMowerState (mower : ApiMower) : Model.State :=
  match mower.attributes.mower.state with
  | .IN_OPERATION => .IN_OPERATION
  | .ERROR | .ERROR_AT_POWER_UP | .FATAL_ERROR | .RESTRICTED => .FAULTED
  | .PAUSED => .PAUSED
  | .STOPPED => .STOPPED
  | .NOT_APPLICABLE | .OFF => .OFF
  | .WAIT_POWER_UP | .WAIT_UPDATING | .UNKNOWN => .UNKNOWN

/-- Embeds `AutomowerGetMowersServiceImpl.createMower`. -/
def createMower (mower : ApiMower) : Model.Mower :=
  let modelInformation := parseModelInformation mower.attributes.system.model
  { id := mower.id
  , attributes :=
    { location := none
    , battery :=
      { isCharging := some (mower.attributes.mower.activity == ApiActivity.CHARGING)
      , level := mower.attributes.battery.batteryPercent }
    , connection := { connected := mower.attributes.metadata.connected }
    , metadata :=
      { manufacturer := modelInformation.manufacturer
      , model := modelInformation.model
      , name := mower.attributes.system.name
      , serialNumber := (Nat.repr mower.attributes.system.serialNumber).toList }
    , mower :=
      { activity := convertMowerActivity mower
      , state := convertMowerState mower
      , enabled := none } } }

/-- Try-block of `AutomowerGetMowersServiceImpl.getMowers`: fetch the current
token, fetch the raw mowers, convert each one.  The two fallible collaborator
calls are passed as `Except`-returning functions. -/
def getMowersBody (fetchToken : Except BackendError Model.AccessToken)
    (clientGetMowers : Model.AccessToken → Except BackendError (List ApiMower)) :
    Except BackendError (List Model.Mower) := do
  let token ← fetchToken
  let mowers ← clientGetMowers token
  pure (mowers.map createMower)

/-- Embeds `AutomowerGetMowersServiceImpl.getMowers` with its catch block:
on `NotAuthorizedError` the token manager is flagged invalid (second
component `true`), and the error is always re-thrown. -/
def getMowers (fetchToken : Except BackendError Model.AccessToken)
    (clientGetMowers : Model.AccessToken → Except BackendError (List ApiMower)) :
    Except BackendError (List Model.Mower) × Bool :=
  match getMowersBody fetchToken clientGetMowers with
  | .ok result => (.ok result, false)
  | .error e => (.error e, decide (e = BackendError.notAuthorized))

end Automower

namespace Gardena

/-! Types of `clients/gardena/gardenaClient.ts` as consumed by
`GardenaGetMowersService`.  Items of the `included` array carry their
attribute payloads optionally; the unchecked TypeScript casts are modelled
by projections that default when the payload is absent. -/

inductive ItemType
  | DEVICE | MOWER | COMMON | WEBSOCKET | LOCATION | UNKNOWN
deriving DecidableEq, Repr, Inhabited

inductive MowerActivity
  | OK_CHARGING | OK_CUTTING | OK_CUTTING_TIMER_OVERRIDDEN | PAUSED | OK_LEAVING
  | OK_SEARCHING | PARKED_AUTOTIMER | PARKED_PARK_SELECTED | PARKED_TIMER | NONE | OTHER
deriving DecidableEq, Repr, Inhabited

inductive MowerError
  | OFF_DISABLED | OFF_HATCH_CLOSED | OFF_HATCH_OPEN | ALARM_MOWER_LIFTED | LIFTED
  | TEMPORARILY_LIFTED | TRAPPED | UPSIDE_DOWN | NO_MESSAGE | OTHER
deriving DecidableEq, Repr, Inhabited

inductive ServiceState
  | OK | WARNING | ERROR | UNAVAILABLE | OTHER
deriving DecidableEq, Repr, Inhabited

inductive RFLinkState
  | ONLINE | OFFLINE | UNKNOWN
deriving DecidableEq, Repr, Inhabited

structure ValueOf (α : Type) where
  value : α
deriving DecidableEq, Repr, Inhabited

structure MowerServiceAttributes where
  state : ValueOf ServiceState
  activity : ValueOf MowerActivity
  lastErrorCode : ValueOf MowerError
deriving DecidableEq, Repr, Inhabited

structure CommonServiceAttributes where
  name : ValueOf (List Char)
  batteryLevel : ValueOf Nat
  rfLinkState : ValueOf RFLinkState
  serial : ValueOf (List Char)
  modelType : ValueOf (List Char)
deriving DecidableEq, Repr, Inhabited

structure DeviceRef where
  id : String
  type : ItemType
deriving DecidableEq, Repr

structure DeviceLink where
  id : String
  type : ItemType
  mowerAttributes : Option MowerServiceAttributes
  commonAttributes : Option CommonServiceAttributes
  serviceRefs : List DeviceRef
deriving DecidableEq, Repr

structure LocationLink where
  id : String
deriving DecidableEq, Repr

structure LocationData where
  id : String
  devicesRefs : List DeviceRef
deriving DecidableEq, Repr

structure LocationResponse where
  data : LocationData
  included : List DeviceLink
deriving DecidableEq, Repr

structure LocationsResponse where
  data : Option (List LocationLink)
deriving DecidableEq, Repr

/-- Projection standing for the `as MowerServiceDataItem` cast. -/
def DeviceLink.asMowerAttributes (o : DeviceLink) : MowerServiceAttributes :=
  o.mowerAttributes.getD default

/-- Projection standing for the `as CommonServiceDataItem` cast. -/
def DeviceLink.asCommonAttributes (o : DeviceLink) : CommonServiceAttributes :=
  o.commonAttributes.getD default

/-- Embeds `GardenaGetMowersService.isMowerEnabled`. -/
def isMowerEnabled (mower : DeviceLink) : Bool :=
  if mower.asMowerAttributes.lastErrorCode.value == MowerError.OFF_DISABLED then
    false
  else
    mower.asMowerAttributes.activity.value != MowerActivity.PARKED_PARK_SELECTED

/-- Embeds `GardenaGetMowersService.convertMowerActivity`. -/
def convertMowerActivity (mower : DeviceLink) : Model.Activity :=
  match mower.asMowerAttributes.activity.value with
  | .OK_CHARGING => .CHARGING
  | .OK_CUTTING | .OK_CUTTING_TIMER_OVERRIDDEN | .PAUSED => .MOWING
  | .OK_LEAVING => .LEAVING_HOME
  | .OK_SEARCHING => .GOING_HOME
  | .PARKED_AUTOTIMER | .PARKED_PARK_SELECTED | .PARKED_TIMER => .PARKED
  | .NONE => .UNKNOWN
  | .OTHER => .UNKNOWN

/-- Embeds `GardenaGetMowersService.convertMowerState`. -/
def convertMowerState (mower : DeviceLink) : Model.State :=
  if mower.asMowerAttributes.activity.value == MowerActivity.PAUSED then
    Model.State.PAUSED
  else
    match mower.asMowerAttributes.lastErrorCode.value with
    | .OFF_DISABLED | .OFF_HATCH_CLOSED | .OFF_HATCH_OPEN => .OFF
    | .ALARM_MOWER_LIFTED | .LIFTED | .TEMPORARILY_LIFTED => .TAMPERED
    | .TRAPPED | .UPSIDE_DOWN => .FAULTED
    | _ =>
      match mower.asMowerAttributes.state.value with
      | .OK => .READY
      | .WARNING | .ERROR => .FAULTED
      | .UNAVAILABLE => .UNKNOWN
      | .OTHER => .UNKNOWN

/-- Embeds `GardenaGetMowersService.createMower`. -/
def createMower (mower common : DeviceLink) (location : LocationData) : Model.Mower :=
  let modelInformation := parseModelInformation common.asCommonAttributes.modelType.value
  { id := mower.id
  , attributes :=
    { location := some { id := location.id }
    , battery :=
      { isCharging := none
      , level := common.asCommonAttributes.batteryLevel.value }
    , connection :=
      { connected := common.asCommonAttributes.rfLinkState.value == RFLinkState.ONLINE }
    , metadata :=
      { manufacturer := modelInformation.manufacturer
      , model := modelInformation.model
      , name := common.asCommonAttributes.name.value
      , serialNumber := common.asCommonAttributes.serial.value }
    , mower :=
      { activity := convertMowerActivity mower
      , state := convertMowerState mower
      , enabled := some (isMowerEnabled mower) } } }

/-- Embeds `GardenaGetMowersService.findDevicesAtLocation`. -/
def findDevicesAtLocation (location : LocationResponse) : List DeviceLink :=
  let refs := location.data.devicesRefs.filter (fun device => device.type == ItemType.DEVICE)
  refs.filterMap (fun ref =>
    (location.included.filter (fun o => o.id == ref.id && o.type == ItemType.DEVICE)).head?)

/-- Embeds `GardenaGetMowersService.findDeviceServicesAtLocation`. -/
def findDeviceServicesAtLocation (device : DeviceLink) (location : LocationResponse) :
    List DeviceLink :=
  device.serviceRefs.filterMap (fun ref =>
    (location.included.filter (fun o => o.id == ref.id && o.type == ref.type)).head?)

/-- Embeds `GardenaGetMowersService.findMowersAtLocation`: a device lacking
the required common service is skipped (the source logs a warning there). -/
def findMowersAtLocation (location : LocationResponse) : List Model.Mower :=
  (findDevicesAtLocation location).filterMap (fun device =>
    let services := findDeviceServicesAtLocation device location
    match (services.filter (fun o => o.type == ItemType.MOWER)).head? with
    | some mower =>
      match (services.filter (fun o => o.type == ItemType.COMMON)).head? with
      | some common => some (createMower mower common location.data)
      | none => none
    | none => none)

/-- Embeds `GardenaGetMowersService.getLocationsForAccount`. -/
def getLocationsForAccount (token : Model.AccessToken)
    (clientGetLocations : Model.AccessToken → Except BackendError (Option LocationsResponse)) :
    Except BackendError (List LocationLink) := do
  let locations ← clientGetLocations token
  match locations with
  | none => pure []
  | some locs =>
    match locs.data with
    | none => pure []
    | some refs => pure refs

/-- Loop body of `GardenaGetMowersService.getMowers`: the first location the
client can resolve yields the mowers; locations the client reports as
`undefined` are skipped. -/
def findMowersAtFirstLocation (token : Model.AccessToken)
    (clientGetLocation : String → Model.AccessToken → Except BackendError (Option LocationResponse)) :
    List LocationLink → Except BackendError (List Model.Mower)
  | [] => pure []
  | ref :: rest => do
    let location ← clientGetLocation ref.id token
    match location with
    | some loc => pure (findMowersAtLocation loc)
    | none => findMowersAtFirstLocation token clientGetLocation rest

/-- Try-block of `GardenaGetMowersService.getMowers`. -/
def getMowersBody (fetchToken : Except BackendError Model.AccessToken)
    (clientGetLocations : Model.AccessToken → Except BackendError (Option LocationsResponse))
    (clientGetLocation : String → Model.AccessToken → Except BackendError (Option LocationResponse)) :
    Except BackendError (List Model.Mower) := do
  let token ← fetchToken
  let refs ← getLocationsForAccount token clientGetLocations
  findMowersAtFirstLocation token clientGetLocation refs

/-- Embeds `GardenaGetMowersService.getMowers` with its catch block: on
`NotAuthorizedError` the token manager is flagged invalid (second component
`true`), and the error is always re-thrown. -/
def getMowers (fetchToken : Except BackendError Model.AccessToken)
    (clientGetLocations : Model.AccessToken → Except BackendError (Option LocationsResponse))
    (clientGetLocation : String → Model.AccessToken → Except BackendError (Option LocationResponse)) :
    Except BackendError (List Model.Mower) × Bool :=
  match getMowersBody fetchToken clientGetLocations clientGetLocation with
  | .ok result => (.ok result, false)
  | .error e => (.error e, decide (e = BackendError.notAuthorized))

end Gardena

/-- C9: every failing execution of `getMowers` (both vendor variants)
re-throws the error to the caller unchanged, and `flagAsInvalid()` fires if
and only if the failure is the not-authorized error; success never flags. -/
theorem getMowers_error_handling
    (ft : Except BackendError Model.AccessToken)
    (cm : Model.AccessToken → Except BackendError (List Automower.ApiMower))
    (gls : Model.AccessToken → Except BackendError (Option Gardena.LocationsResponse))
    (gl : String → Model.AccessToken → Except BackendError (Option Gardena.LocationResponse)) :
    (Automower.getMowers ft cm).1 = Automower.getMowersBody ft cm ∧
    (Gardena.getMowers ft gls gl).1 = Gardena.getMowersBody ft gls gl ∧
    (∀ e, (Automower.getMowers ft cm).1 = .error e →
      ((Automower.getMowers ft cm).2 = true ↔ e = BackendError.notAuthorized)) ∧
    (∀ e, (Gardena.getMowers ft gls gl).1 = .error e →
      ((Gardena.getMowers ft gls gl).2 = true ↔ e = BackendError.notAuthorized)) ∧
    (∀ r, (Automower.getMowers ft cm).1 = .ok r → (Automower.getMowers ft cm).2 = false) ∧
    (∀ r, (Gardena.getMowers ft gls gl).1 = .ok r → (Gardena.getMowers ft gls gl).2 = false) := by
  refine ⟨?_, ?_, ?_, ?_, ?_, ?_⟩
  · unfold Automower.getMowers
    cases Automower.getMowersBody ft cm <;> rfl
  · unfold Gardena.getMowers
    cases Gardena.getMowersBody ft gls gl <;> rfl
  · intro e he
    unfold Automower.getMowers at he ⊢
    cases hb : Automower.getMowersBody ft cm with
    | ok r => rw [hb] at he; exact absurd he (by simp)
    | error e0 =>
      rw [hb] at he
      simp only at he
      have : e0 = e := by injection he
      subst this
      simp
  · intro e he
    unfold Gardena.getMowers at he ⊢
    cases hb : Gardena.getMowersBody ft gls gl with
    | ok r => rw [hb] at he; exact absurd he (by simp)
    | error e0 =>
      rw [hb] at he
      simp only at he
      have : e0 = e := by injection he
      subst this
      simp
  · intro r hr
    unfold Automower.getMowers at hr ⊢
    cases hb : Automower.getMowersBody ft cm with
    | ok x => rfl
    | error e0 => rw [hb] at hr; exact absurd hr (by simp)
  · intro r hr
    unfold Gardena.getMowers at hr ⊢
    cases hb : Gardena.getMowersBody ft gls gl with
    | ok x => rfl
    | error e0 => rw [hb] at hr; exact absurd hr (by simp)

/-- Witness for C9: with a token fetch that fails not-authorized, both
variants re-throw the error and flag the token invalid. -/
theorem getMowers_error_handling_witness :
    (Automower.getMowers (.error BackendError.notAuthorized) (fun _ => .ok [])).2 = true ∧
    (Gardena.getMowers (.error BackendError.notAuthorized) (fun _ => .ok none)
      (fun _ _ => .ok none)).2 = true := by
  have h := getMowers_error_handling (.error BackendError.notAuthorized) (fun _ => .ok [])
    (fun _ => .ok none) (fun _ _ => .ok none)
  exact ⟨(h.2.2.1 BackendError.notAuthorized rfl).mpr rfl,
    (h.2.2.2.1 BackendError.notAuthorized rfl).mpr rfl⟩

namespace AutomowerStream

/-! Embedding of `AutomowerEventStreamClientImpl.onMessageReceived`.  An
inbound frame is a byte buffer; its JSON parse outcome is modelled as an
`Option`al parsed object (`none` models `JSON.parse` throwing), and a parsed
object exposes the fields the handler inspects: an optional `connectionId`
(a handshake frame) and an optional event `type`. -/

structure ParsedMessage where
  connectionId : Option String
  ready : Option Bool
  eventId : Option String
  eventType : Option String
deriving DecidableEq, Repr

structure InboundBuffer where
  length : Nat
  parsed : Option ParsedMessage
deriving DecidableEq, Repr

/-- Flags produced inside the try-block of `onMessageReceived`. -/
structure MsgFlags where
  eventCallbackInvoked : Bool
  connectedHandled : Bool
deriving DecidableEq, Repr

/-- Observable outcome of one `onMessageReceived` invocation. -/
structure MsgOutcome where
  eventCallbackInvoked : Bool
  connectedHandled : Bool
  errorLogged : Bool
  terminated : Bool
  propagated : Bool
deriving DecidableEq, Repr

/-- Try-block of `onMessageReceived`: `JSON.parse`, then dispatch on the
presence of `connectionId` and `type`.  A `.error` value models a thrown
exception (the parse failing, or the registered event callback throwing). -/
def onMessageTryBlock (cbSet cbThrows : Bool) (parsed : Option ParsedMessage) :
    Except String MsgFlags :=
  match parsed with
  | none => .error "SyntaxError: Unexpected token in JSON"
  | some data =>
    if data.connectionId.isSome then
      .ok { eventCallbackInvoked := false, connectedHandled := true }
    else if data.eventType.isSome then
      if cbSet then
        if cbThrows then .error "error thrown by the event callback"
        else .ok { eventCallbackInvoked := true, connectedHandled := false }
      else .ok { eventCallbackInvoked := false, connectedHandled := false }
    else .ok { eventCallbackInvoked := false, connectedHandled := false }

/-- Embeds `AutomowerEventStreamClientImpl.onMessageReceived`: the
empty-buffer early return sits before the try-block, and the catch block
turns any exception into an `ERROR_PROCESSING_MESSAGE` log entry.  The
handler never closes the socket (`terminated` is constantly `false`, as no
code path invokes close or terminate) and never re-throws (`propagated` is
constantly `false`, by the catch). -/
def onMessageReceived (cbSet cbThrows : Bool) (buffer : InboundBuffer) : MsgOutcome :=
  if buffer.length = 0 then
    { eventCallbackInvoked := false, connectedHandled := false
    , errorLogged := false, terminated := false, propagated := false }
  else
    match onMessageTryBlock cbSet cbThrows buffer.parsed with
    | .ok flags =>
      { eventCallbackInvoked := flags.eventCallbackInvoked
      , connectedHandled := flags.connectedHandled
      , errorLogged := false, terminated := false, propagated := false }
    | .error _ =>
      { eventCallbackInvoked := false, connectedHandled := false
      , errorLogged := true, terminated := false, propagated := false }

end AutomowerStream

/-- C2: `onMessageReceived` never lets an exception escape and never
terminates the stream; an empty frame is ignored outright, and a frame whose
payload fails to parse is logged and swallowed — in both cases the
registered event callback is not invoked. -/
theorem onMessageReceived_safe (cbSet cbThrows : Bool)
    (buffer : AutomowerStream.InboundBuffer) :
    (AutomowerStream.onMessageReceived cbSet cbThrows buffer).propagated = false ∧
    (AutomowerStream.onMessageReceived cbSet cbThrows buffer).terminated = false ∧
    (buffer.length = 0 →
      AutomowerStream.onMessageReceived cbSet cbThrows buffer =
        { eventCallbackInvoked := false, connectedHandled := false
        , errorLogged := false, terminated := false, propagated := false }) ∧
    (buffer.length ≠ 0 → buffer.parsed = none →
      AutomowerStream.onMessageReceived cbSet cbThrows buffer =
        { eventCallbackInvoked := false, connectedHandled := false
        , errorLogged := true, terminated := false, propagated := false }) := by
  unfold AutomowerStream.onMessageReceived
  by_cases h0 : buffer.length = 0
  · simp [h0]
  · refine ⟨?_, ?_, ?_, ?_⟩
    · rw [if_neg h0]
      cases AutomowerStream.onMessageTryBlock cbSet cbThrows buffer.parsed <;> rfl
    · rw [if_neg h0]
      cases AutomowerStream.onMessageTryBlock cbSet cbThrows buffer.parsed <;> rfl
    · intro h; exact absurd h h0
    · intro _ hp
      rw [if_neg h0, hp]
      rfl

/-- Witness for C2: an empty frame and a one-byte malformed frame, with a
registered, throwing callback. -/
theorem onMessageReceived_safe_witness :
    (AutomowerStream.onMessageReceived true true
        { length := 0, parsed := none }).eventCallbackInvoked = false ∧
    (AutomowerStream.onMessageReceived true true
        { length := 1, parsed := none }).errorLogged = true ∧
    (AutomowerStream.onMessageReceived true true
        { length := 1, parsed := none }).propagated = false := by
  have he := onMessageReceived_safe true true { length := 0, parsed := none }
  have hm := onMessageReceived_safe true true { length := 1, parsed := none }
  refine ⟨?_, ?_, hm.1⟩
  · rw [he.2.2.1 rfl]
  · rw [hm.2.2.2 (by decide) rfl]

namespace Policy

/-! ## Schedule-enabled policy

The implementation file of `DeterministicScheduleEnabledPolicy` is not part
of the provided sources (only its test suite is), so the decision engine is
modelled from §4.4 of the specification and checked against the behaviours
pinned down by the test suite. -/

inductive RestrictedReason
  | NONE | WEEK_SCHEDULE | PARK_OVERRIDE | SENSOR | DAILY_LIMIT | NOT_APPLICABLE
deriving DecidableEq, Repr

inductive OverrideAction
  | NOT_ACTIVE | FORCE_PARK | FORCE_MOW | NO_SOURCE
deriving DecidableEq, Repr

structure PlannerOverride where
  action : Option OverrideAction
deriving DecidableEq, Repr

structure Planner where
  nextStartTimestamp : Nat
  override : PlannerOverride
  restrictedReason : Option RestrictedReason
deriving DecidableEq, Repr

structure Task where
  start : Nat
  duration : Nat
  sunday : Bool
  monday : Bool
  tuesday : Bool
  wednesday : Bool
  thursday : Bool
  friday : Bool
  saturday : Bool
deriving DecidableEq, Repr

structure Calendar where
  tasks : List Task
deriving DecidableEq, Repr

structure MowerState where
  activity : Model.Activity
  state : Model.State
  mode : Automower.ApiMode
  errorCode : Nat
  errorCodeTimestamp : Nat
deriving DecidableEq, Repr

/-- Inputs of the policy, set independently and retained across calls. -/
structure PolicyState where
  calendar : Option Calendar
  planner : Option Planner
  mowerState : Option MowerState
deriving DecidableEq, Repr

/-- Wall-clock instant at which `apply()` is evaluated: day of week
(0 = Sunday ... 6 = Saturday, as JavaScript `Date.getDay()`) and minute of
day. -/
structure WallClock where
  dayOfWeek : Fin 7
  minuteOfDay : Nat
deriving DecidableEq, Repr

inductive PolicyError
  | invalidState
deriving DecidableEq, Repr

/-- Modelled from the spec: §4.4 — whether a task is scheduled for the given
weekday. -/
def taskOnDay (t : Task) (d : Fin 7) : Bool :=
  match d.val with
  | 0 => t.sunday
  | 1 => t.monday
  | 2 => t.tuesday
  | 3 => t.wednesday
  | 4 => t.thursday
  | 5 => t.friday
  | _ => t.saturday

/-- Modelled from the spec: §4.4 clause 3 — some task is scheduled for the
current weekday with the current time inside `[start, start + duration)`. -/
def calendarOverlap (now : WallClock) (c : Calendar) : Bool :=
  c.tasks.any (fun t =>
    taskOnDay t now.dayOfWeek
      && decide (t.start ≤ now.minuteOfDay)
      && decide (now.minuteOfDay < t.start + t.duration))

/-- Modelled from the spec: §4.4 clause 3 — the backend's own week-schedule
signal: a non-zero `nextStartTimestamp` together with
`restrictedReason = WEEK_SCHEDULE`. -/
def plannerSignal (p : Planner) : Bool :=
  decide (p.nextStartTimestamp ≠ 0)
    && decide (p.restrictedReason = some RestrictedReason.WEEK_SCHEDULE)

/-- Modelled from the spec: §4.4 `shouldApply()` of
`DeterministicScheduleEnabledPolicy` (implementation absent from the
sources) — false when either calendar or planner is unset; false while a set
mower state reports the mower actively in operation; true otherwise. -/
def shouldApply (st : PolicyState) : Bool :=
  match st.calendar, st.planner with
  | some _, some _ =>
    match st.mowerState with
    | some m => decide (m.state ≠ Model.State.IN_OPERATION)
    | none => true
  | _, _ => false

/-- Modelled from the spec: §4.4 `apply()` of
`DeterministicScheduleEnabledPolicy` (implementation absent from the
sources) — invalid-state failure when calendar or planner is unset; false
under a forced-park override or a park-override restriction; otherwise the
calendar-overlap check or the planner's week-schedule signal. -/
def apply (now : WallClock) (st : PolicyState) : Except PolicyError Bool :=
  match st.calendar, st.planner with
  | some cal, some p =>
    if p.override.action = some OverrideAction.FORCE_PARK then
      .ok false
    else if p.restrictedReason = some RestrictedReason.PARK_OVERRIDE then
      .ok false
    else
      .ok (calendarOverlap now cal || plannerSignal p)
  | _, _ => .error PolicyError.invalidState

/-- The calendar of the spec's policy scenario: one task
`{start: 1, duration: 1, sunday: true}`. -/
def scenarioCalendar : Calendar :=
  { tasks := [
      { start := 1, duration := 1
      , sunday := true, monday := false, tuesday := false, wednesday := false
      , thursday := false, friday := false, saturday := false }] }

/-- The planner of the spec's C5 scenario:
`{nextStartTimestamp: 1653984000000, restrictedReason: WEEK_SCHEDULE}`. -/
def scenarioPlanner : Planner :=
  { nextStartTimestamp := 1653984000000
  , override := { action := none }
  , restrictedReason := some RestrictedReason.WEEK_SCHEDULE }

end Policy

/-- C5: with the calendar holding one task `{start:1, duration:1, sunday}`
and the planner `{nextStartTimestamp: 1653984000000, restrictedReason:
WEEK_SCHEDULE}`, `apply()` returns true at every wall-clock instant — the
policy defers to the planner's week-schedule signal. -/
theorem apply_weekSchedule_scenario (now : Policy.WallClock)
    (ms : Option Policy.MowerState) :
    Policy.apply now
      { calendar := some Policy.scenarioCalendar
      , planner := some Policy.scenarioPlanner
      , mowerState := ms } = .ok true := by
  simp [Policy.apply, Policy.scenarioPlanner, Policy.plannerSignal]

/-- C6: whenever the planner's `restrictedReason` is `PARK_OVERRIDE`,
`apply()` returns false, for every calendar, every override action, every
`nextStartTimestamp` and every wall-clock instant. -/
theorem apply_parkOverride_false (now : Policy.WallClock) (cal : Policy.Calendar)
    (ts : Nat) (ov : Policy.PlannerOverride) (ms : Option Policy.MowerState) :
    Policy.apply now
      { calendar := some cal
      , planner := some
          { nextStartTimestamp := ts
          , override := ov
          , restrictedReason := some Policy.RestrictedReason.PARK_OVERRIDE }
      , mowerState := ms } = .ok false := by
  unfold Policy.apply
  by_cases h : ov.action = some Policy.OverrideAction.FORCE_PARK
  · simp [h]
  · simp [h]

/-- C7: when the calendar or the planner is unset, `apply()` fails with the
invalid-state error (it does not produce a boolean), while `shouldApply()`
returns false on the same state. -/
theorem apply_invalidState (st : Policy.PolicyState) (now : Policy.WallClock)
    (h : st.calendar = none ∨ st.planner = none) :
    Policy.apply now st = .error Policy.PolicyError.invalidState ∧
    Policy.shouldApply st = false := by
  unfold Policy.apply Policy.shouldApply
  rcases st with ⟨cal, p, ms⟩
  rcases h with h | h <;> simp only at h <;> subst h
  · cases p <;> simp
  · cases cal <;> simp

/-- Witness for C7: the empty policy state. -/
theorem apply_invalidState_witness :
    Policy.apply { dayOfWeek := 0, minuteOfDay := 0 }
        { calendar := none, planner := none, mowerState := none } =
      .error Policy.PolicyError.invalidState ∧
    Policy.shouldApply { calendar := none, planner := none, mowerState := none } = false :=
  apply_invalidState { calendar := none, planner := none, mowerState := none }
    { dayOfWeek := 0, minuteOfDay := 0 } (Or.inl rfl)

/-- C8: `shouldApply()` returns false when either the calendar or the
planner is unset; with both set it returns false exactly when a set mower
state reports the mower actively in operation, and true otherwise (mower
state unset or not in operation). -/
theorem shouldApply_cases (st : Policy.PolicyState) :
    ((st.calendar = none ∨ st.planner = none) → Policy.shouldApply st = false) ∧
    (st.calendar ≠ none → st.planner ≠ none →
      ((∃ m, st.mowerState = some m ∧ m.state = Model.State.IN_OPERATION) →
          Policy.shouldApply st = false) ∧
      ((∀ m, st.mowerState = some m → m.state ≠ Model.State.IN_OPERATION) →
          Policy.shouldApply st = true)) := by
  rcases st with ⟨cal, p, ms⟩
  refine ⟨?_, ?_⟩
  · intro h
    rcases h with h | h <;> simp only at h <;> subst h
    · cases p <;> simp [Policy.shouldApply]
    · cases cal <;> simp [Policy.shouldApply]
  · intro hc hp
    simp only at hc hp
    rcases cal with _ | cal
    · exact absurd rfl hc
    rcases p with _ | p
    · exact absurd rfl hp
    constructor
    · rintro ⟨m, hm, hop⟩
      simp only at hm
      subst hm
      simp [Policy.shouldApply, hop]
    · intro hnot
      rcases ms with _ | m
      · simp [Policy.shouldApply]
      · have := hnot m rfl
        simp [Policy.shouldApply, this]

/-- Witness for C8: both inputs set and the mower actively mowing gives
false; clearing the mower state gives true; dropping the planner gives
false. -/
theorem shouldApply_cases_witness :
    Policy.shouldApply
      { calendar := some Policy.scenarioCalendar
      , planner := some Policy.scenarioPlanner
      , mowerState := some
          { activity := Model.Activity.MOWING, state := Model.State.IN_OPERATION
          , mode := Automower.ApiMode.MAIN_AREA
          , errorCode := 0, errorCodeTimestamp := 0 } } = false ∧
    Policy.shouldApply
      { calendar := some Policy.scenarioCalendar
      , planner := some Policy.scenarioPlanner
      , mowerState := none } = true ∧
    Policy.shouldApply
      { calendar := some Policy.scenarioCalendar
      , planner := none
      , mowerState := none } = false := by
  refine ⟨?_, ?_, ?_⟩
  · exact ((shouldApply_cases _).2 (by simp) (by simp)).1
      ⟨_, rfl, rfl⟩
  · exact ((shouldApply_cases _).2 (by simp) (by simp)).2
      (fun m hm => by simp at hm)
  · exact (shouldApply_cases _).1 (Or.inr rfl)

namespace StreamClient

/-! ## Event stream client lifecycle

The abstract event stream client (`AbstractEventStreamClient`: the
connection phases, `open`, `close` and the socket close handler) is absent
from the provided sources — only its subclasses and its test suite are — so
its lifecycle is modelled from §4.2 of the specification and checked against
the behaviours the test suite pins down. -/

/-- Connection phase flags: *connecting* (socket open, handshake not yet
seen) and *connected* (first message observed). -/
structure Phase where
  connecting : Bool
  connected : Bool
deriving DecidableEq, Repr

/-- Modelled from the spec: §4.2 socket-level close handling — the phase
flags are cleared, and the registered disconnected callback fires only when
the *connected* phase had been reached (a close while merely *connecting*
suppresses it to avoid reconnect storms). The second component records
whether the disconnected callback was invoked. -/
def onCloseReceived (callbackSet : Bool) (st : Phase) : Phase × Bool :=
  ({ connecting := false, connected := false }, st.connected && callbackSet)

/-- Connection ownership state of the client: the identifiers of the open
sockets it holds, plus a counter minting fresh socket identifiers. -/
structure SocketOwnership where
  openSockets : List Nat
  nextId : Nat
deriving DecidableEq, Repr

inductive SocketAction
  | closeSocket (id : Nat)
  | createSocket (id : Nat)
deriving DecidableEq, Repr

/-- Modelled from the spec: §4.2 `close()` — gracefully closes whatever
socket is held; idempotent, a no-op when not connected. -/
def closeClient (st : SocketOwnership) : SocketOwnership × List SocketAction :=
  ({ openSockets := [], nextId := st.nextId },
    st.openSockets.map SocketAction.closeSocket)

/-- Modelled from the spec: §4.2 `open(token)` — when a connection already
exists it is closed first, then a single new socket is established. -/
def openClient (st : SocketOwnership) : SocketOwnership × List SocketAction :=
  let closed := if st.openSockets.isEmpty then (st, []) else closeClient st
  ({ openSockets := [closed.1.nextId], nextId := closed.1.nextId + 1 },
    closed.2 ++ [SocketAction.createSocket closed.1.nextId])

/-- States of the client reachable from the disconnected initial state by
any sequence of `open` and `close` calls. -/
inductive Reachable : SocketOwnership → Prop
  | init : Reachable { openSockets := [], nextId := 0 }
  | openStep {st : SocketOwnership} : Reachable st → Reachable (openClient st).1
  | closeStep {st : SocketOwnership} : Reachable st → Reachable (closeClient st).1

end StreamClient

/-- C3: on a socket-level close, the disconnected callback is not invoked
when the phase was still *connecting* (never *connected*), it is invoked
when the phase was *connected*, and afterwards the client reports neither
connecting nor connected. -/
theorem onCloseReceived_phases (st : StreamClient.Phase) (callbackSet : Bool)
    (hcb : callbackSet = true) :
    (st.connecting = true → st.connected = false →
      (StreamClient.onCloseReceived callbackSet st).2 = false) ∧
    (st.connected = true → (StreamClient.onCloseReceived callbackSet st).2 = true) ∧
    (StreamClient.onCloseReceived callbackSet st).1.connecting = false ∧
    (StreamClient.onCloseReceived callbackSet st).1.connected = false := by
  subst hcb
  refine ⟨?_, ?_, rfl, rfl⟩
  · intro _ hconn
    simp [StreamClient.onCloseReceived, hconn]
  · intro hconn
    simp [StreamClient.onCloseReceived, hconn]

/-- Witness for C3: a close during the connecting phase suppresses the
callback; a close after the connected phase fires it. -/
theorem onCloseReceived_phases_witness :
    (StreamClient.onCloseReceived true { connecting := true, connected := false }).2 = false ∧
    (StreamClient.onCloseReceived true { connecting := false, connected := true }).2 = true := by
  have h1 := onCloseReceived_phases { connecting := true, connected := false } true rfl
  have h2 := onCloseReceived_phases { connecting := false, connected := true } true rfl
  exact ⟨h1.1 rfl rfl, h2.2.1 rfl⟩

/-- C4: opening while a connection exists closes the old socket strictly
before the new one is created, and every state of the client reachable
through `open`/`close` sequences holds at most one open socket. -/
theorem openClient_single_connection (st : StreamClient.SocketOwnership) (s : Nat)
    (hone : st.openSockets = [s]) :
    (StreamClient.openClient st).2 =
      [StreamClient.SocketAction.closeSocket s,
        StreamClient.SocketAction.createSocket st.nextId] ∧
    (StreamClient.openClient st).1.openSockets = [st.nextId] ∧
    (∀ st2 : StreamClient.SocketOwnership, StreamClient.Reachable st2 →
      st2.openSockets.length ≤ 1) := by
  refine ⟨?_, ?_, ?_⟩
  · simp [StreamClient.openClient, StreamClient.closeClient, hone]
  · simp [StreamClient.openClient, StreamClient.closeClient, hone]
  · intro st2 h
    induction h with
    | init => simp
    | openStep _ _ => simp [StreamClient.openClient]
    | closeStep _ _ => simp [StreamClient.closeClient]

/-- Witness for C4: reopening a client holding socket 0 closes socket 0
before creating socket 1. -/
theorem openClient_single_connection_witness :
    (StreamClient.openClient { openSockets := [0], nextId := 1 }).2 =
      [StreamClient.SocketAction.closeSocket 0,
        StreamClient.SocketAction.createSocket 1] ∧
    (StreamClient.openClient { openSockets := [0], nextId := 1 }).1.openSockets = [1] := by
  have h := openClient_single_connection { openSockets := [0], nextId := 1 } 0 rfl
  exact ⟨h.1, h.2.1⟩

namespace StreamService

/-! ## Event Stream Service keep-alive tick

The `EventStreamServiceImpl` implementation is absent from the provided
sources (only its test suites are), so the keep-alive tick is modelled from
§4.3 of the specification: the four-way decision rule, the catch block
around the reconnect attempt, and the rearming of the recurring timer in the
tick's completion path. -/

/-- Environment of one tick: the observable client and service state, plus
failure oracles for the two fallible reconnect steps (token fetch and socket
open). -/
structure TickEnv where
  connected : Bool
  started : Nat
  lastEventReceived : Option Nat
  now : Nat
  reconnectInterval : Nat
  tokenFetchFails : Bool
  openFails : Bool
deriving DecidableEq, Repr

inductive TickAction
  | fetchToken
  | closeStream
  | openStream
  | ping
  | logError
  | armTimer
deriving DecidableEq, Repr

/-- Modelled from the spec: §4.3 decision rule — reconnect when the client
is disconnected, when no event was ever received and the service has been
started for longer than the reconnect interval, or when the last event is
older than the reconnect interval. -/
def needsReconnect (env : TickEnv) : Bool :=
  !env.connected
    || (env.lastEventReceived.isNone
          && decide (env.now - env.started > env.reconnectInterval))
    || (match env.lastEventReceived with
        | some t => decide (env.now - t > env.reconnectInterval)
        | none => false)

/-- Modelled from the spec: §4.3 reconnect — fetch a fresh token, close,
then open.  Returns the actions performed before any exception together with
the exception, if one was raised. -/
def reconnectAttempt (env : TickEnv) : List TickAction × Option String :=
  if env.tokenFetchFails then
    ([], some "unable to fetch an access token")
  else if env.openFails then
    ([TickAction.fetchToken, TickAction.closeStream],
      some "unable to open the stream socket")
  else
    ([TickAction.fetchToken, TickAction.closeStream, TickAction.openStream], none)

/-- Modelled from the spec: §4.3 `keepAlive` tick — reconnect or ping per
the decision rule, catch and log any exception from the attempt, and rearm
the recurring timer at the end of the tick.  The second component records
whether an exception propagated out of the tick. -/
def keepAlive (env : TickEnv) : List TickAction × Bool :=
  let attempt :=
    if needsReconnect env then reconnectAttempt env
    else ([TickAction.ping], none)
  match attempt.2 with
  | some _ => (attempt.1 ++ [TickAction.logError, TickAction.armTimer], false)
  | none => (attempt.1 ++ [TickAction.armTimer], false)

end StreamService

/-- C1: no exception escapes a keep-alive tick — a failed reconnect is
logged instead — and the recurring timer is rearmed exactly once, as the
final step, on every tick, whatever the decision branch and whether or not
the branch threw. -/
theorem keepAlive_rearms_once (env : StreamService.TickEnv) :
    (StreamService.keepAlive env).2 = false ∧
    (StreamService.keepAlive env).1.count StreamService.TickAction.armTimer = 1 ∧
    (StreamService.keepAlive env).1.getLast? = some StreamService.TickAction.armTimer ∧
    (StreamService.needsReconnect env = true →
      (StreamService.reconnectAttempt env).2.isSome = true →
      StreamService.TickAction.logError ∈ (StreamService.keepAlive env).1) := by
  unfold StreamService.keepAlive StreamService.reconnectAttempt
  by_cases hr : StreamService.needsReconnect env
  · by_cases ht : env.tokenFetchFails
    · simp [hr, ht]
    · by_cases ho : env.openFails
      · simp [hr, ht, ho]
      · simp [hr, ht, ho]
  · simp [hr]

/-- Witness for C1: a tick on a disconnected client whose token fetch fails
still rearms the timer once and logs the failure without propagating it. -/
theorem keepAlive_rearms_once_witness :
    (StreamService.keepAlive
      { connected := false, started := 0, lastEventReceived := none
      , now := 0, reconnectInterval := 300000
      , tokenFetchFails := true, openFails := false }).2 = false ∧
    StreamService.TickAction.logError ∈
      (StreamService.keepAlive
        { connected := false, started := 0, lastEventReceived := none
        , now := 0, reconnectInterval := 300000
        , tokenFetchFails := true, openFails := false }).1 := by
  have h := keepAlive_rearms_once
    { connected := false, started := 0, lastEventReceived := none
    , now := 0, reconnectInterval := 300000
    , tokenFetchFails := true, openFails := false }
  exact ⟨h.1, h.2.2.2 (by decide) (by decide)⟩

/-- Witness for C5: the scenario evaluated on a Wednesday at noon, far from
the task window, still yields true. -/
theorem apply_weekSchedule_scenario_witness :
    Policy.apply { dayOfWeek := 3, minuteOfDay := 720 }
      { calendar := some Policy.scenarioCalendar
      , planner := some Policy.scenarioPlanner
      , mowerState := none } = .ok true :=
  apply_weekSchedule_scenario { dayOfWeek := 3, minuteOfDay := 720 } none

/-- Witness for C6: a park-override planner with a calendar task overlapping
the evaluation instant (Sunday, minute 1) still yields false. -/
theorem apply_parkOverride_false_witness :
    Policy.apply { dayOfWeek := 0, minuteOfDay := 1 }
      { calendar := some Policy.scenarioCalendar
      , planner := some
          { nextStartTimestamp := 0
          , override := { action := none }
          , restrictedReason := some Policy.RestrictedReason.PARK_OVERRIDE }
      , mowerState := none } = .ok false :=
  apply_parkOverride_false { dayOfWeek := 0, minuteOfDay := 1 }
    Policy.scenarioCalendar 0 { action := none } none
